import Mathlib

/-!
Verification development for the browser client of the task-management
application.  The definitions below are a shallow embedding of the
frontend source: the query-key constructors and mutation `onSuccess`
handlers of `src/frontend/src/hooks/useTasks.ts`, the API client of
`src/frontend/src/lib/api.ts`, the query-provider retry policy, the
signup page's submit handler, the shared error formatter
`getErrorMessage`, and the task-card action guards.  JavaScript
truthiness on strings and optional values is modelled explicitly
(absent or empty string is falsy).
-/

namespace TodoClient

/-- A task record, mirroring the fields of the `Task` type that the
verified components read (`id`, `is_completed`,
`ai_enhanced_description`; the remaining fields are carried for
faithfulness to the data model of the spec, §3). -/
structure Task where
  id : Nat
  title : String
  description : String
  ai_enhanced_description : Option String
  priority : String
  is_completed : Bool
  due_date : Option String
  deriving Repr, DecidableEq

/-- A category record (`id`, `name`, display `color`). -/
structure Category where
  id : Nat
  name : String
  color : String
  deriving Repr, DecidableEq

/-- One component of a react-query cache key: the key arrays in
`useTasks.ts` mix string literals, numeric ids and filter objects. -/
inductive KeyAtom where
  | str (s : String)
  | num (n : Nat)
  | filt (f : Nat)
  deriving Repr, DecidableEq

/-- A cache key is an array of key atoms, as in
`['tasks', 'detail', id]`. -/
abbrev QKey := List KeyAtom

-- Query-key constructors for tasks, from `taskKeys` in `useTasks.ts`.
namespace taskKeys

def all : QKey := [KeyAtom.str "tasks"]

def lists : QKey := all ++ [KeyAtom.str "list"]

def list (f : Nat) : QKey := lists ++ [KeyAtom.filt f]

def details : QKey := all ++ [KeyAtom.str "detail"]

def detail (id : Nat) : QKey := details ++ [KeyAtom.num id]

def stats : QKey := all ++ [KeyAtom.str "stats"]

def today : QKey := all ++ [KeyAtom.str "today"]

def overdue : QKey := all ++ [KeyAtom.str "overdue"]

end taskKeys

-- Query-key constructors for categories, from `categoryKeys`.
namespace categoryKeys

def all : QKey := [KeyAtom.str "categories"]

def lists : QKey := all ++ [KeyAtom.str "list"]

def details : QKey := all ++ [KeyAtom.str "detail"]

def detail (id : Nat) : QKey := details ++ [KeyAtom.num id]

end categoryKeys

/-- A value stored in the query cache: the handlers store single tasks,
task lists, single categories and category lists. -/
inductive CacheVal where
  | task (t : Task)
  | taskList (ts : List Task)
  | category (c : Category)
  | categoryList (cs : List Category)
  deriving Repr, DecidableEq

/-- The query-client cache: per key, optional cached data and a
staleness flag (`stale = true` forces the next read to hit the
network).  This models the query library's cache as the spec's §4.2
describes it. -/
structure Cache where
  data : QKey → Option CacheVal
  stale : QKey → Bool

/-- Model of `queryClient.setQueryData(k, v)`: write-through of `v` at exactly
key `k`, marking it fresh. -/
def setQueryData (k : QKey) (v : CacheVal) (c : Cache) : Cache where
  data := fun k2 => if k2 = k then some v else c.data k2
  stale := fun k2 => if k2 = k then false else c.stale k2

/-- Model of `queryClient.setQueryData(k, updater)`: functional write-through at
exactly key `k` from the previously cached value. -/
def setQueryDataWith (k : QKey) (f : Option CacheVal → CacheVal) (c : Cache) : Cache where
  data := fun k2 => if k2 = k then some (f (c.data k)) else c.data k2
  stale := fun k2 => if k2 = k then false else c.stale k2

/-- Model of `queryClient.invalidateQueries({queryKey: k})`: mark every key
with prefix `k` stale. -/
def invalidateQueries (k : QKey) (c : Cache) : Cache where
  data := c.data
  stale := fun k2 => if k.isPrefixOf k2 then true else c.stale k2

/-- Model of `queryClient.removeQueries({queryKey: k})`: drop every cache entry
whose key has prefix `k`. -/
def removeQueries (k : QKey) (c : Cache) : Cache where
  data := fun k2 => if k.isPrefixOf k2 then none else c.data k2
  stale := fun k2 => if k.isPrefixOf k2 then false else c.stale k2

/-- Model of `useCreateTask().onSuccess`: invalidate task lists, stats and
today's tasks (`useTasks.ts` lines 76–83). -/
def onCreateTaskSuccess (_newTask : Task) (c : Cache) : Cache :=
  invalidateQueries taskKeys.today
    (invalidateQueries taskKeys.stats
      (invalidateQueries taskKeys.lists c))

/-- Model of `useUpdateTask().onSuccess`: write the returned task into the
detail cache, then invalidate lists, stats, today and overdue
(`useTasks.ts` lines 97–108). -/
def onUpdateTaskSuccess (updatedTask : Task) (c : Cache) : Cache :=
  invalidateQueries taskKeys.overdue
    (invalidateQueries taskKeys.today
      (invalidateQueries taskKeys.stats
        (invalidateQueries taskKeys.lists
          (setQueryData (taskKeys.detail updatedTask.id) (CacheVal.task updatedTask) c))))

/-- Model of `useDeleteTask().onSuccess`: evict the detail entry, then
invalidate lists, stats, today and overdue (`useTasks.ts` 121–132). -/
def onDeleteTaskSuccess (deletedId : Nat) (c : Cache) : Cache :=
  invalidateQueries taskKeys.overdue
    (invalidateQueries taskKeys.today
      (invalidateQueries taskKeys.stats
        (invalidateQueries taskKeys.lists
          (removeQueries (taskKeys.detail deletedId) c))))

/-- Model of `useCompleteTask().onSuccess`: write the returned task into the
detail cache, then invalidate lists, stats, today and overdue
(`useTasks.ts` 145–156). -/
def onCompleteTaskSuccess (completedTask : Task) (c : Cache) : Cache :=
  invalidateQueries taskKeys.overdue
    (invalidateQueries taskKeys.today
      (invalidateQueries taskKeys.stats
        (invalidateQueries taskKeys.lists
          (setQueryData (taskKeys.detail completedTask.id) (CacheVal.task completedTask) c))))

/-- Model of `useEnhanceTask().onSuccess`: write the returned task into the
detail cache and invalidate only the task lists (`useTasks.ts`
169–177). -/
def onEnhanceTaskSuccess (enhancedTask : Task) (c : Cache) : Cache :=
  invalidateQueries taskKeys.lists
    (setQueryData (taskKeys.detail enhancedTask.id) (CacheVal.task enhancedTask) c)

/-- The `useCreateCategory` list updater: `old ? [...old, newCategory]
: [newCategory]` (a cached entry holding a non-list value cannot occur
at the list key under the client's typing and is treated like an
absent entry). -/
def createCategoryUpd (newCategory : Category) : Option CacheVal → CacheVal :=
  fun old =>
    match old with
    | some (CacheVal.categoryList l) => CacheVal.categoryList (l ++ [newCategory])
    | _ => CacheVal.categoryList [newCategory]

/-- The `useUpdateCategory` list updater:
`old.map(cat => cat.id === updatedCategory.id ? updatedCategory : cat)`. -/
def updateCategoryUpd (updatedCategory : Category) : Option CacheVal → CacheVal :=
  fun old =>
    match old with
    | some (CacheVal.categoryList l) =>
        CacheVal.categoryList
          (l.map (fun cat => if cat.id = updatedCategory.id then updatedCategory else cat))
    | _ => CacheVal.categoryList [updatedCategory]

/-- The `useDeleteCategory` list updater:
`old.filter(cat => cat.id !== deletedId)`. -/
def deleteCategoryUpd (deletedId : Nat) : Option CacheVal → CacheVal :=
  fun old =>
    match old with
    | some (CacheVal.categoryList l) =>
        CacheVal.categoryList (l.filter (fun cat => cat.id ≠ deletedId))
    | _ => CacheVal.categoryList []

/-- Model of `useCreateCategory().onSuccess`: append the new category to the
cached category list (`useTasks.ts` category hooks). -/
def onCreateCategorySuccess (newCategory : Category) (c : Cache) : Cache :=
  setQueryDataWith categoryKeys.lists (createCategoryUpd newCategory) c

/-- Model of `useUpdateCategory().onSuccess`: write-through the category detail
cache, then replace the entry in the cached list. -/
def onUpdateCategorySuccess (updatedCategory : Category) (c : Cache) : Cache :=
  setQueryDataWith categoryKeys.lists (updateCategoryUpd updatedCategory)
    (setQueryData (categoryKeys.detail updatedCategory.id)
      (CacheVal.category updatedCategory) c)

/-- Model of `useDeleteCategory().onSuccess`: evict the category detail entry,
then remove the entry from the cached list. -/
def onDeleteCategorySuccess (deletedId : Nat) (c : Cache) : Cache :=
  setQueryDataWith categoryKeys.lists (deleteCategoryUpd deletedId)
    (removeQueries (categoryKeys.detail deletedId) c)

/-! ### Query-provider retry policy (`QueryProvider`) -/

/-- JavaScript truthiness of an optional string: `undefined` and the
empty string are falsy, every other string is truthy. -/
def jsTruthyStr : Option String → Bool
  | none => false
  | some s => !s.isEmpty

/-- The default query retry predicate from `QueryProvider`:
`(failureCount, error) => { if (error?.response?.status >= 400 &&
error?.response?.status < 500) return false; return failureCount < 3 }`.
An error with no response has `status = none`; in JavaScript
`undefined >= 400` is false, so such errors take the second branch. -/
def queryRetry (failureCount : Nat) (status : Option Nat) : Bool :=
  match status with
  | some s => if 400 ≤ s ∧ s < 500 then false else failureCount < 3
  | none => failureCount < 3

/-- The default mutation retry option from `QueryProvider`:
`mutations: { retry: false }`. -/
def mutationRetry : Bool := false

/-! ### Local storage and the API client (`lib/api.ts`) -/

/-- Browser local storage: a partial map from string keys to string
values. -/
def Storage := String → Option String

/-- Model of `localStorage.setItem`. -/
def lsSetItem (key value : String) (st : Storage) : Storage :=
  fun k => if k = key then some value else st k

/-- Model of `localStorage.removeItem`. -/
def lsRemoveItem (key : String) (st : Storage) : Storage :=
  fun k => if k = key then none else st k

/-- Model of `authApi.login` storage effect (`api.ts` lines 303–308): on a
successful response `{access, refresh}`, store both tokens. -/
def loginStorageEffect (access refresh : String) (st : Storage) : Storage :=
  lsSetItem "refresh_token" refresh (lsSetItem "access_token" access st)

/-- Model of `authApi.logout` (`api.ts` lines 312–315): remove both tokens. -/
def logoutStorageEffect (st : Storage) : Storage :=
  lsRemoveItem "refresh_token" (lsRemoveItem "access_token" st)

/-- Every method of the API client module (`api.ts`): `tasksApi`,
`categoriesApi`, `contextApi`, `aiApi`, `insightsApi` and `authApi`.
`login` carries the token pair of its successful response. -/
inductive ApiMethod where
  | getTasks | getTask | createTask | updateTask | deleteTask
  | completeTask | enhanceTask | getAIRecommendations
  | recalculatePriority | getStats | getTodayTasks | getOverdueTasks
  | getCategories | createCategory | updateCategory | deleteCategory
  | getContextEntries | createContextEntry | updateContextEntry
  | deleteContextEntry | analyzeContext | getSummary | bulkProcess
  | getUnprocessed | getHighRelevance | getWithSuggestions
  | aiEnhanceTask | aiGetTaskRecommendations | aiSuggestTasksFromContext
  | aiAnalyzeContext | aiGenerateContextSummary | aiBulkProcessContext
  | aiGenerateDailyInsights | aiAnalyzeProductivityPatterns | aiHealthCheck
  | getInsights | getInsight | getActionableInsights | dismissInsight
  | login (access refresh : String) | signup | logout
  deriving Repr, DecidableEq

/-- The local-storage effect of each API-client method: only `login`
and `logout` contain `localStorage` calls, every other method merely
issues an HTTP request (`api.ts`). -/
def storageEffect : ApiMethod → Storage → Storage
  | ApiMethod.login access refresh => loginStorageEffect access refresh
  | ApiMethod.logout => logoutStorageEffect
  | _ => id

/-- The request interceptor (`api.ts` lines 24–30): read
`access_token` from local storage and attach `Authorization: Bearer
<token>` only when the token is truthy. -/
def authHeader (st : Storage) : Option String :=
  match st "access_token" with
  | some token => if token.isEmpty then none else some ("Bearer " ++ token)
  | none => none

/-! ### Signup page (`SignupPage.handleSubmit`) -/

/-- A JSON field value in a backend error body: DRF sends either a
plain string (e.g. `detail`) or an array of messages per field. -/
inductive JsonVal where
  | jstr (s : String)
  | jarr (xs : List String)
  deriving Repr, DecidableEq

/-- A backend error-response body: a bare string or an object of
fields. -/
inductive RespBody where
  | bstr (s : String)
  | bobj (fields : List (String × JsonVal))
  deriving Repr, DecidableEq

/-- The signup page's error state: `useState<string | string[]>`. -/
abbrev ErrSt := String ⊕ List String

/-- JavaScript truthiness of `err?.response?.data`: a missing body and
the empty string are falsy, any object (even `{}`) is truthy. -/
def jsTruthyBody : Option RespBody → Bool
  | none => false
  | some (RespBody.bstr s) => !s.isEmpty
  | some (RespBody.bobj _) => true

/-- JavaScript truthiness of a field access such as `data.detail`. -/
def jsTruthyVal : Option JsonVal → Bool
  | none => false
  | some (JsonVal.jstr s) => !s.isEmpty
  | some (JsonVal.jarr _) => true

/-- Model of `Object.values(data).flat()`: all field values, strings as single
elements and arrays spliced. -/
def flatValues (fields : List (String × JsonVal)) : List String :=
  fields.flatMap (fun p =>
    match p.2 with
    | JsonVal.jstr s => [s]
    | JsonVal.jarr xs => xs)

/-- Model of `setError(data.detail)` stores the field value in the
string-or-array error state. -/
def valToErr : JsonVal → ErrSt
  | JsonVal.jstr s => Sum.inl s
  | JsonVal.jarr xs => Sum.inr xs

/-- The catch-branch of `SignupPage.handleSubmit`: map the error body
to the error state.  `if (data)` / `if (data.detail)` are JavaScript
truthiness tests. -/
def signupErrState (body : Option RespBody) : ErrSt :=
  if jsTruthyBody body then
    match body with
    | some (RespBody.bstr s) => Sum.inl s
    | some (RespBody.bobj fields) =>
        match fields.lookup "detail" with
        | some v =>
            if jsTruthyVal (some v) then valToErr v
            else Sum.inr (flatValues fields)
        | none => Sum.inr (flatValues fields)
    | none => Sum.inl "Signup failed. Please try a different username."
  else Sum.inl "Signup failed. Please try a different username."

/-- The error block of the signup page renders nothing when the error
state is falsy (`{error && ...}`), one line per array element
otherwise (`error.map(... <div>...)`), or the bare string. -/
def displayedLines : ErrSt → List String
  | Sum.inl s => if s.isEmpty then [] else [s]
  | Sum.inr xs => xs

/-- The component state touched by `SignupPage.handleSubmit`. -/
structure SignupState where
  error : ErrSt
  loading : Bool
  deriving DecidableEq

/-- Outcome of the `authApi.signup` call, when it is made. -/
inductive SignupOutcome where
  | success
  | failure (body : Option RespBody)
  deriving DecidableEq

/-- The observable result of one submission: final component state,
whether the network call was issued, and any navigation. -/
structure SubmitResult where
  state : SignupState
  networkCalled : Bool
  redirect : Option String
  deriving DecidableEq

/-- Model of `SignupPage.handleSubmit`: clear the error, reject locally on a
password mismatch (before `setLoading(true)` and before the network
call), otherwise call `authApi.signup` and either navigate to
`/login` or map the caught error body; `finally` resets `loading`. -/
def handleSubmit (password confirmPassword : String) (st : SignupState)
    (outcome : SignupOutcome) : SubmitResult :=
  if password ≠ confirmPassword then
    { state := { error := Sum.inl "Passwords do not match.", loading := st.loading },
      networkCalled := false,
      redirect := none }
  else
    match outcome with
    | SignupOutcome.success =>
        { state := { error := Sum.inl "", loading := false },
          networkCalled := true,
          redirect := some "/login" }
    | SignupOutcome.failure body =>
        { state := { error := signupErrState body, loading := false },
          networkCalled := true,
          redirect := none }

/-! ### Shared mutation-error formatter (`lib/utils.ts`, `getErrorMessage`) -/

/-- The shape of `error.response.data` as read by `getErrorMessage`:
optional `message` and `detail` string fields, plus any further
field→message-array entries (which `getErrorMessage` never reads). -/
structure ErrData where
  message : Option String
  detail : Option String
  fields : List (String × List String)
  deriving DecidableEq

/-- The shape of an axios error as read by `getErrorMessage`:
`error.response?.data` (absent when there was no response) and the
error object's own `message`. -/
structure AxiosErr where
  data : Option ErrData
  message : Option String
  deriving DecidableEq

/-- Model of `getErrorMessage` from `lib/utils.ts`: `response.data.message`,
else `response.data.detail`, else `error.message`, else the fixed
fallback — each guarded by JavaScript truthiness. -/
def getErrorMessage (e : AxiosErr) : String :=
  if jsTruthyStr (e.data.bind ErrData.message) then
    ((e.data.bind ErrData.message).getD "")
  else if jsTruthyStr (e.data.bind ErrData.detail) then
    ((e.data.bind ErrData.detail).getD "")
  else if jsTruthyStr e.message then
    (e.message.getD "")
  else "An unexpected error occurred"

/-! ### Task card actions (`TaskCard.tsx`) and task endpoints (`api.ts`) -/

/-- HTTP methods used by the API client. -/
inductive HttpMethod where
  | get | post | patch | del
  deriving Repr, DecidableEq

/-- An outbound HTTP request (method and path). -/
structure Request where
  method : HttpMethod
  path : String
  deriving Repr, DecidableEq

/-- The body of a `PATCH /tasks/{id}/` update: the only field the task
card's toggle sends is `is_completed`. -/
structure UpdateTaskBody where
  is_completed : Option Bool
  deriving Repr, DecidableEq

/-- Model of `tasksApi.updateTask`: `api.patch('/tasks/' + id + '/')`. -/
def updateTaskRequest (id : Nat) : Request :=
  { method := HttpMethod.patch, path := "/tasks/" ++ toString id ++ "/" }

/-- Model of `tasksApi.completeTask`: `api.post('/tasks/' + id + '/complete/')`. -/
def completeTaskRequest (id : Nat) : Request :=
  { method := HttpMethod.post, path := "/tasks/" ++ toString id ++ "/complete/" }

/-- The mutation dispatched by the task card's completion toggle. -/
inductive ToggleAction where
  | updateCall (id : Nat) (updates : UpdateTaskBody)
  | completeCall (id : Nat)
  deriving Repr, DecidableEq

/-- Model of `TaskCard.handleToggleComplete`: a completed task dispatches
`updateTask.mutate({id, updates: {is_completed: false}})`, an
incomplete one dispatches `completeTask.mutate(id)`. -/
def handleToggleComplete (t : Task) : ToggleAction :=
  if t.is_completed then
    ToggleAction.updateCall t.id { is_completed := some false }
  else ToggleAction.completeCall t.id

/-- The HTTP request ultimately issued by a toggle action, through
`tasksApi`. -/
def toggleRequest : ToggleAction → Request
  | ToggleAction.updateCall id _ => updateTaskRequest id
  | ToggleAction.completeCall id => completeTaskRequest id

/-- The task card's guard for the AI-enhancement button:
`!task.is_completed && !task.ai_enhanced_description`
(`TaskCard.tsx` line 90). -/
def showEnhanceButton (t : Task) : Bool :=
  !t.is_completed && !jsTruthyStr t.ai_enhanced_description

end TodoClient

namespace TodoClient

/-! ### Key disjointness facts used by the invalidation proofs -/

@[simp] lemma not_lists_pre_stats : ¬ taskKeys.lists <+: taskKeys.stats := by decide

@[simp] lemma not_lists_pre_today : ¬ taskKeys.lists <+: taskKeys.today := by decide

@[simp] lemma not_lists_pre_overdue : ¬ taskKeys.lists <+: taskKeys.overdue := by decide

@[simp] lemma not_stats_pre_today : ¬ taskKeys.stats <+: taskKeys.today := by decide

@[simp] lemma not_stats_pre_overdue : ¬ taskKeys.stats <+: taskKeys.overdue := by decide

@[simp] lemma not_today_pre_stats : ¬ taskKeys.today <+: taskKeys.stats := by decide

@[simp] lemma not_today_pre_overdue : ¬ taskKeys.today <+: taskKeys.overdue := by decide

@[simp] lemma not_overdue_pre_stats : ¬ taskKeys.overdue <+: taskKeys.stats := by decide

@[simp] lemma not_overdue_pre_today : ¬ taskKeys.overdue <+: taskKeys.today := by decide

@[simp] lemma not_detail_pre_stats (d : Nat) : ¬ taskKeys.detail d <+: taskKeys.stats := by
  simp [taskKeys.detail, taskKeys.details, taskKeys.all, taskKeys.stats, List.cons_prefix_cons]

@[simp] lemma not_detail_pre_today (d : Nat) : ¬ taskKeys.detail d <+: taskKeys.today := by
  simp [taskKeys.detail, taskKeys.details, taskKeys.all, taskKeys.today, List.cons_prefix_cons]

@[simp] lemma not_detail_pre_overdue (d : Nat) : ¬ taskKeys.detail d <+: taskKeys.overdue := by
  simp [taskKeys.detail, taskKeys.details, taskKeys.all, taskKeys.overdue, List.cons_prefix_cons]

@[simp] lemma stats_ne_detail (d : Nat) : ¬ taskKeys.stats = taskKeys.detail d := by
  simp [taskKeys.detail, taskKeys.details, taskKeys.all, taskKeys.stats]

@[simp] lemma today_ne_detail (d : Nat) : ¬ taskKeys.today = taskKeys.detail d := by
  simp [taskKeys.detail, taskKeys.details, taskKeys.all, taskKeys.today]

@[simp] lemma overdue_ne_detail (d : Nat) : ¬ taskKeys.overdue = taskKeys.detail d := by
  simp [taskKeys.detail, taskKeys.details, taskKeys.all, taskKeys.overdue]

@[simp] lemma cat_detail_ne_lists (d : Nat) :
    ¬ categoryKeys.detail d = categoryKeys.lists := by
  simp [categoryKeys.detail, categoryKeys.details, categoryKeys.all, categoryKeys.lists]

@[simp] lemma cat_lists_ne_detail (d : Nat) :
    ¬ categoryKeys.lists = categoryKeys.detail d := by
  simp [categoryKeys.detail, categoryKeys.details, categoryKeys.all, categoryKeys.lists]

@[simp] lemma not_cat_detail_pre_lists (d : Nat) :
    ¬ categoryKeys.detail d <+: categoryKeys.lists := by
  simp [categoryKeys.detail, categoryKeys.details, categoryKeys.all, categoryKeys.lists,
        List.cons_prefix_cons]

/-! ### Claim theorems -/

/-- C1: every task mutation's on-success handler invalidates the full
invalidation set of its §4.2 matrix row: create invalidates every
task-list key, stats and today; update and complete write the returned
task through to its detail entry and invalidate every task-list key,
stats, today and overdue; delete evicts the detail entry for the
deleted id and invalidates every task-list key, stats, today and
overdue; enhance writes the returned task through to its detail entry
and invalidates every task-list key. -/
theorem task_mutation_invalidation_matrix (c : Cache) (t : Task) (did : Nat) :
    ((∀ k, taskKeys.lists.isPrefixOf k = true → (onCreateTaskSuccess t c).stale k = true)
      ∧ (onCreateTaskSuccess t c).stale taskKeys.stats = true
      ∧ (onCreateTaskSuccess t c).stale taskKeys.today = true)
    ∧ ((onUpdateTaskSuccess t c).data (taskKeys.detail t.id) = some (CacheVal.task t)
      ∧ (∀ k, taskKeys.lists.isPrefixOf k = true → (onUpdateTaskSuccess t c).stale k = true)
      ∧ (onUpdateTaskSuccess t c).stale taskKeys.stats = true
      ∧ (onUpdateTaskSuccess t c).stale taskKeys.today = true
      ∧ (onUpdateTaskSuccess t c).stale taskKeys.overdue = true)
    ∧ ((onCompleteTaskSuccess t c).data (taskKeys.detail t.id) = some (CacheVal.task t)
      ∧ (∀ k, taskKeys.lists.isPrefixOf k = true → (onCompleteTaskSuccess t c).stale k = true)
      ∧ (onCompleteTaskSuccess t c).stale taskKeys.stats = true
      ∧ (onCompleteTaskSuccess t c).stale taskKeys.today = true
      ∧ (onCompleteTaskSuccess t c).stale taskKeys.overdue = true)
    ∧ ((onDeleteTaskSuccess did c).data (taskKeys.detail did) = none
      ∧ (∀ k, taskKeys.lists.isPrefixOf k = true → (onDeleteTaskSuccess did c).stale k = true)
      ∧ (onDeleteTaskSuccess did c).stale taskKeys.stats = true
      ∧ (onDeleteTaskSuccess did c).stale taskKeys.today = true
      ∧ (onDeleteTaskSuccess did c).stale taskKeys.overdue = true)
    ∧ ((onEnhanceTaskSuccess t c).data (taskKeys.detail t.id) = some (CacheVal.task t)
      ∧ (∀ k, taskKeys.lists.isPrefixOf k = true → (onEnhanceTaskSuccess t c).stale k = true)) := by
  refine ⟨⟨?_, ?_, ?_⟩, ⟨?_, ?_, ?_, ?_, ?_⟩, ⟨?_, ?_, ?_, ?_, ?_⟩,
          ⟨?_, ?_, ?_, ?_, ?_⟩, ?_, ?_⟩ <;>
    first
      | (intro k h
         simp only [List.isPrefixOf_iff_prefix] at h
         simp [onCreateTaskSuccess, onUpdateTaskSuccess, onDeleteTaskSuccess,
               onCompleteTaskSuccess, onEnhanceTaskSuccess,
               invalidateQueries, setQueryData, removeQueries, h])
      | simp [onCreateTaskSuccess, onUpdateTaskSuccess, onDeleteTaskSuccess,
              onCompleteTaskSuccess, onEnhanceTaskSuccess,
              invalidateQueries, setQueryData, removeQueries]

/-- Witness for C1: on an initially empty cache, creating a task marks
a concrete filtered task-list key stale. -/
theorem task_mutation_invalidation_matrix_witness :
    (onCreateTaskSuccess ⟨1, "t", "", none, "low", false, none⟩
        ⟨fun _ => none, fun _ => false⟩).stale (taskKeys.list 5) = true :=
  (task_mutation_invalidation_matrix ⟨fun _ => none, fun _ => false⟩
    ⟨1, "t", "", none, "low", false, none⟩ 3).1.1 (taskKeys.list 5) (by decide)

end TodoClient

namespace TodoClient

/-- C2: each task mutation's on-success handler leaves every cache key
outside its §4.2 matrix row unchanged (data and staleness); in
particular create-task leaves the overdue key untouched, and
enhance-task leaves the stats, today and overdue keys untouched. -/
theorem task_mutation_frame (c : Cache) (t : Task) (did : Nat) (k : QKey) :
    (¬ taskKeys.lists <+: k → ¬ taskKeys.stats <+: k → ¬ taskKeys.today <+: k →
      (onCreateTaskSuccess t c).data k = c.data k
        ∧ (onCreateTaskSuccess t c).stale k = c.stale k)
    ∧ ((onCreateTaskSuccess t c).data taskKeys.overdue = c.data taskKeys.overdue
      ∧ (onCreateTaskSuccess t c).stale taskKeys.overdue = c.stale taskKeys.overdue)
    ∧ (k ≠ taskKeys.detail t.id → ¬ taskKeys.lists <+: k → ¬ taskKeys.stats <+: k →
       ¬ taskKeys.today <+: k → ¬ taskKeys.overdue <+: k →
      (onUpdateTaskSuccess t c).data k = c.data k
        ∧ (onUpdateTaskSuccess t c).stale k = c.stale k)
    ∧ (k ≠ taskKeys.detail t.id → ¬ taskKeys.lists <+: k → ¬ taskKeys.stats <+: k →
       ¬ taskKeys.today <+: k → ¬ taskKeys.overdue <+: k →
      (onCompleteTaskSuccess t c).data k = c.data k
        ∧ (onCompleteTaskSuccess t c).stale k = c.stale k)
    ∧ (¬ taskKeys.detail did <+: k → ¬ taskKeys.lists <+: k → ¬ taskKeys.stats <+: k →
       ¬ taskKeys.today <+: k → ¬ taskKeys.overdue <+: k →
      (onDeleteTaskSuccess did c).data k = c.data k
        ∧ (onDeleteTaskSuccess did c).stale k = c.stale k)
    ∧ (k ≠ taskKeys.detail t.id → ¬ taskKeys.lists <+: k →
      (onEnhanceTaskSuccess t c).data k = c.data k
        ∧ (onEnhanceTaskSuccess t c).stale k = c.stale k)
    ∧ ((onEnhanceTaskSuccess t c).data taskKeys.stats = c.data taskKeys.stats
      ∧ (onEnhanceTaskSuccess t c).stale taskKeys.stats = c.stale taskKeys.stats
      ∧ (onEnhanceTaskSuccess t c).data taskKeys.today = c.data taskKeys.today
      ∧ (onEnhanceTaskSuccess t c).stale taskKeys.today = c.stale taskKeys.today
      ∧ (onEnhanceTaskSuccess t c).data taskKeys.overdue = c.data taskKeys.overdue
      ∧ (onEnhanceTaskSuccess t c).stale taskKeys.overdue = c.stale taskKeys.overdue) := by
  refine ⟨?_, ?_, ?_, ?_, ?_, ?_, ?_⟩ <;>
    first
      | (intro h1 h2 h3 h4 h5
         simp [onCreateTaskSuccess, onUpdateTaskSuccess, onDeleteTaskSuccess,
               onCompleteTaskSuccess, onEnhanceTaskSuccess,
               invalidateQueries, setQueryData, removeQueries, h1, h2, h3, h4, h5])
      | (intro h1 h2 h3
         simp [onCreateTaskSuccess, invalidateQueries, h1, h2, h3])
      | (intro h1 h2
         simp [onEnhanceTaskSuccess, invalidateQueries, setQueryData, h1, h2])
      | simp [onCreateTaskSuccess, onEnhanceTaskSuccess,
              invalidateQueries, setQueryData]

/-- Witness for C2: on a cache holding stale data at the overdue key,
creating a task changes neither the overdue entry nor its staleness,
and keys outside the create row keep their state. -/
theorem task_mutation_frame_witness :
    (onCreateTaskSuccess ⟨1, "t", "", none, "low", false, none⟩
        ⟨fun _ => some (CacheVal.taskList []), fun _ => true⟩).data taskKeys.overdue
      = some (CacheVal.taskList [])
    ∧ (onCreateTaskSuccess ⟨1, "t", "", none, "low", false, none⟩
        ⟨fun _ => some (CacheVal.taskList []), fun _ => true⟩).stale (taskKeys.detail 9) = true :=
  ⟨((task_mutation_frame ⟨fun _ => some (CacheVal.taskList []), fun _ => true⟩
      ⟨1, "t", "", none, "low", false, none⟩ 0 taskKeys.overdue).2.1).1,
   ((task_mutation_frame ⟨fun _ => some (CacheVal.taskList []), fun _ => true⟩
      ⟨1, "t", "", none, "low", false, none⟩ 0 (taskKeys.detail 9)).1
      (by decide) (by decide) (by decide)).2⟩

end TodoClient

namespace TodoClient

/-- C4: the category mutation handlers maintain the cached category
list per the §4.2 matrix: create appends the new category (a singleton
list when the cache was empty); update overwrites the category-detail
entry and replaces exactly the list entries with matching id, keeping
every other entry and the order; delete evicts the category-detail
entry and removes exactly the list entries with the deleted id. -/
theorem category_mutation_matrix (c : Cache) (cat : Category) (did : Nat) :
    ((c.data categoryKeys.lists = none →
       (onCreateCategorySuccess cat c).data categoryKeys.lists
         = some (CacheVal.categoryList [cat]))
     ∧ (∀ l, c.data categoryKeys.lists = some (CacheVal.categoryList l) →
       (onCreateCategorySuccess cat c).data categoryKeys.lists
         = some (CacheVal.categoryList (l ++ [cat]))))
    ∧ ((onUpdateCategorySuccess cat c).data (categoryKeys.detail cat.id)
        = some (CacheVal.category cat)
     ∧ (∀ l, c.data categoryKeys.lists = some (CacheVal.categoryList l) →
       (onUpdateCategorySuccess cat c).data categoryKeys.lists
         = some (CacheVal.categoryList
             (l.map (fun x => if x.id = cat.id then cat else x)))
       ∧ (l.map (fun x => if x.id = cat.id then cat else x)).length = l.length
       ∧ ∀ (i : Nat), (l.map (fun x => if x.id = cat.id then cat else x))[i]?
           = (l[i]?).map (fun x => if x.id = cat.id then cat else x)))
    ∧ ((onDeleteCategorySuccess did c).data (categoryKeys.detail did) = none
     ∧ (∀ l, c.data categoryKeys.lists = some (CacheVal.categoryList l) →
       (onDeleteCategorySuccess did c).data categoryKeys.lists
         = some (CacheVal.categoryList (l.filter (fun x => x.id ≠ did)))
       ∧ (∀ x, x ∈ l.filter (fun y => y.id ≠ did) ↔ x ∈ l ∧ x.id ≠ did)
       ∧ (l.filter (fun x => x.id ≠ did)).Sublist l)) := by
  refine ⟨⟨?_, ?_⟩, ⟨?_, ?_⟩, ⟨?_, ?_⟩⟩
  · intro h
    simp [onCreateCategorySuccess, setQueryDataWith, createCategoryUpd, h]
  · intro l h
    simp [onCreateCategorySuccess, setQueryDataWith, createCategoryUpd, h]
  · simp [onUpdateCategorySuccess, setQueryDataWith, setQueryData]
  · intro l h
    refine ⟨?_, by simp, fun i => List.getElem?_map _ _ _⟩
    simp [onUpdateCategorySuccess, setQueryDataWith, setQueryData, updateCategoryUpd, h]
  · simp [onDeleteCategorySuccess, setQueryDataWith, removeQueries]
  · intro l h
    refine ⟨?_, fun x => by simp [List.mem_filter], List.filter_sublist l⟩
    simp [onDeleteCategorySuccess, setQueryDataWith, removeQueries, deleteCategoryUpd, h]

/-- Witness for C4: creating a category on a cache whose list holds
two categories appends the new one at the end. -/
theorem category_mutation_matrix_witness :
    (onCreateCategorySuccess ⟨3, "new", "green"⟩
      ⟨fun _ => some (CacheVal.categoryList [⟨1, "a", "red"⟩, ⟨2, "b", "blue"⟩]),
       fun _ => false⟩).data categoryKeys.lists
      = some (CacheVal.categoryList [⟨1, "a", "red"⟩, ⟨2, "b", "blue"⟩, ⟨3, "new", "green"⟩]) :=
  (category_mutation_matrix
    ⟨fun _ => some (CacheVal.categoryList [⟨1, "a", "red"⟩, ⟨2, "b", "blue"⟩]),
     fun _ => false⟩ ⟨3, "new", "green"⟩ 0).1.2
    [⟨1, "a", "red"⟩, ⟨2, "b", "blue"⟩] rfl

end TodoClient

namespace TodoClient

/-- C3: the query-layer retry predicate refuses to retry whenever the
error carries an HTTP status in [400, 500), otherwise retries exactly
while the failure count is below 3 (errors without a response status
take the same branch), and mutations are configured to never retry. -/
theorem retry_policy (n : Nat) (st : Option Nat) :
    (∀ s, 400 ≤ s → s < 500 → queryRetry n (some s) = false)
    ∧ ((∀ s, st = some s → s < 400 ∨ 500 ≤ s) → (queryRetry n st = true ↔ n < 3))
    ∧ mutationRetry = false := by
  refine ⟨?_, ?_, rfl⟩
  · intro s h1 h2
    simp [queryRetry, h1, h2]
  · intro h
    cases st with
    | none => simp [queryRetry]
    | some s =>
        rcases h s rfl with h' | h' <;> simp [queryRetry] <;> omega

/-- Witness for C3: a 404 is never retried, a 500 is retried on the
first failure, and mutations never retry. -/
theorem retry_policy_witness :
    queryRetry 0 (some 404) = false
    ∧ (queryRetry 1 (some 500) = true ↔ 1 < 3)
    ∧ mutationRetry = false :=
  ⟨(retry_policy 0 (some 404)).1 404 (by decide) (by decide),
   (retry_policy 1 (some 500)).2.1 (fun s hs => by cases hs; right; decide),
   (retry_policy 0 none).2.2⟩

/-- C5: login writes exactly the keys `access_token` and
`refresh_token` into local storage, logout removes exactly those two
keys, no other API-client method changes local storage, and a request
issued with no `access_token` in storage carries no Authorization
header. -/
theorem auth_storage_effects (a r : String) (st : Storage) :
    (∀ k, storageEffect (ApiMethod.login a r) st k
        = if k = "refresh_token" then some r
          else if k = "access_token" then some a else st k)
    ∧ (∀ k, storageEffect ApiMethod.logout st k
        = if k = "refresh_token" then none
          else if k = "access_token" then none else st k)
    ∧ (∀ m : ApiMethod, (∀ x y, m ≠ ApiMethod.login x y) → m ≠ ApiMethod.logout →
        storageEffect m st = st)
    ∧ (st "access_token" = none → authHeader st = none) := by
  refine ⟨?_, ?_, ?_, ?_⟩
  · intro k
    simp [storageEffect, loginStorageEffect, lsSetItem]
  · intro k
    simp [storageEffect, logoutStorageEffect, lsRemoveItem]
  · intro m h1 h2
    cases m <;> first | rfl | exact absurd rfl (h1 _ _) | exact absurd rfl h2
  · intro h
    simp [authHeader, h]

/-- Witness for C5: after logout on a storage holding both tokens, the
access token is gone, a task fetch leaves storage unchanged, and the
interceptor attaches no header to a request on empty storage. -/
theorem auth_storage_effects_witness :
    (storageEffect ApiMethod.logout
        (fun k => if k = "access_token" then some "tok"
                  else if k = "refresh_token" then some "ref" else none) "access_token" = none)
    ∧ storageEffect ApiMethod.getTasks (fun _ => none) = (fun _ => none)
    ∧ authHeader (fun _ => none) = none := by
  refine ⟨?_, ?_, ?_⟩
  · exact (auth_storage_effects "" ""
      (fun k => if k = "access_token" then some "tok"
                else if k = "refresh_token" then some "ref" else none)).2.1 "access_token"
  · exact (auth_storage_effects "" "" (fun _ => none)).2.2.1 ApiMethod.getTasks
      (fun x y h => by cases h) (fun h => by cases h)
  · exact (auth_storage_effects "" "" (fun _ => none)).2.2.2 rfl

/-- C6: submitting the signup form with mismatching password fields
sets the error state to exactly "Passwords do not match.", issues no
network request, performs no navigation and leaves the loading flag
unchanged. -/
theorem signup_password_mismatch (p cp : String) (st : SignupState)
    (o : SignupOutcome) (h : p ≠ cp) :
    handleSubmit p cp st o =
      { state := { error := Sum.inl "Passwords do not match.", loading := st.loading },
        networkCalled := false,
        redirect := none } := by
  simp [handleSubmit, h]

/-- Witness for C6: a concrete mismatched submission is rejected
locally. -/
theorem signup_password_mismatch_witness :
    handleSubmit "hunter2" "hunter3" ⟨Sum.inl "", false⟩ SignupOutcome.success =
      { state := { error := Sum.inl "Passwords do not match.", loading := false },
        networkCalled := false,
        redirect := none } :=
  signup_password_mismatch "hunter2" "hunter3" ⟨Sum.inl "", false⟩
    SignupOutcome.success (by decide)

end TodoClient

namespace TodoClient

/-- A string's `isEmpty` is false exactly when it differs from `""`. -/
@[simp] lemma string_isEmpty_eq_false (s : String) : s.isEmpty = false ↔ s ≠ "" := by
  simp [Bool.eq_false_iff, String.isEmpty_iff]

@[simp] lemma jsTruthyStr_none : jsTruthyStr none = false := rfl

@[simp] lemma jsTruthyStr_some (s : String) : jsTruthyStr (some s) = !s.isEmpty := rfl

/-- C7 counterexample: for the empty-string response body the claim
fails — the signup form does not display the string body as-is but
falls back to the fixed failure message, because `if (data)` is false
for the empty string. -/
theorem signup_error_display_ctrex :
    signupErrState (some (RespBody.bstr "")) ≠ Sum.inl ""
    ∧ displayedLines (signupErrState (some (RespBody.bstr ""))) ≠ [""]
    ∧ signupErrState (some (RespBody.bstr ""))
        = Sum.inl "Signup failed. Please try a different username." := by
  refine ⟨by decide, by decide, rfl⟩

/-- C7 (amended): a non-empty string body is displayed as-is; an
empty-string or absent body yields the fixed fallback message; a body
whose `detail` field holds a truthy value displays exactly that value
(a non-empty string as a single line, an array as one line per
element); any other object body — `detail` absent or falsy — is
flattened into one line per field message. -/
theorem signup_error_display (s d : String) (fields : List (String × JsonVal))
    (fieldErrs : List (String × List String)) :
    (s ≠ "" → signupErrState (some (RespBody.bstr s)) = Sum.inl s
      ∧ displayedLines (signupErrState (some (RespBody.bstr s))) = [s])
    ∧ signupErrState (some (RespBody.bstr ""))
        = Sum.inl "Signup failed. Please try a different username."
    ∧ (fields.lookup "detail" = some (JsonVal.jstr d) → d ≠ "" →
        signupErrState (some (RespBody.bobj fields)) = Sum.inl d
        ∧ displayedLines (signupErrState (some (RespBody.bobj fields))) = [d])
    ∧ (∀ xs, fields.lookup "detail" = some (JsonVal.jarr xs) →
        signupErrState (some (RespBody.bobj fields)) = Sum.inr xs
        ∧ displayedLines (signupErrState (some (RespBody.bobj fields))) = xs)
    ∧ (jsTruthyVal (fields.lookup "detail") = false →
        signupErrState (some (RespBody.bobj fields)) = Sum.inr (flatValues fields))
    ∧ ((fieldErrs.map (fun q => (q.1, JsonVal.jarr q.2))).lookup "detail" = none →
        displayedLines (signupErrState (some (RespBody.bobj
            (fieldErrs.map (fun q => (q.1, JsonVal.jarr q.2))))))
          = fieldErrs.flatMap Prod.snd)
    ∧ (signupErrState none
        = Sum.inl "Signup failed. Please try a different username."
      ∧ displayedLines (signupErrState none)
          = ["Signup failed. Please try a different username."]) := by
  refine ⟨?_, rfl, ?_, ?_, ?_, ?_, by simp [signupErrState, jsTruthyBody, displayedLines]⟩
  · intro h
    simp [signupErrState, jsTruthyBody, displayedLines, String.isEmpty_iff,
          string_isEmpty_eq_false, h]
  · intro hd h
    simp [signupErrState, jsTruthyBody, displayedLines, valToErr, jsTruthyVal,
          String.isEmpty_iff, string_isEmpty_eq_false, hd, h]
  · intro xs hd
    simp [signupErrState, jsTruthyBody, displayedLines, valToErr, jsTruthyVal, hd]
  · intro h
    cases heq : fields.lookup "detail" with
    | none => simp [signupErrState, jsTruthyBody, heq]
    | some v =>
        rw [heq] at h
        simp [signupErrState, jsTruthyBody, heq, h]
  · intro h
    simp [signupErrState, jsTruthyBody, displayedLines, h, flatValues, List.flatMap_map]

/-- Witness for C7 (amended): the two concrete examples of the spec —
a `detail` body displays exactly its value, and a field→array body
displays one line per message — plus an array-valued `detail`
displayed as-is, not flattened with the other fields. -/
theorem signup_error_display_witness :
    displayedLines (signupErrState (some (RespBody.bobj
        [("detail", JsonVal.jstr "username taken")]))) = ["username taken"]
    ∧ displayedLines (signupErrState (some (RespBody.bobj
        [("field1", JsonVal.jarr ["err1"]), ("field2", JsonVal.jarr ["err2"])])))
      = ["err1", "err2"]
    ∧ displayedLines (signupErrState (some (RespBody.bobj
        [("detail", JsonVal.jarr ["a"]), ("field1", JsonVal.jarr ["e"])]))) = ["a"] :=
  ⟨((signup_error_display "x" "username taken"
      [("detail", JsonVal.jstr "username taken")] []).2.2.1 rfl (by decide)).2,
   (signup_error_display "x" "d" []
      [("field1", ["err1"]), ("field2", ["err2"])]).2.2.2.2.2.1 (by decide),
   ((signup_error_display "x" "d"
      [("detail", JsonVal.jarr ["a"]), ("field1", JsonVal.jarr ["e"])] []).2.2.2.1
      ["a"] rfl).2⟩

end TodoClient

namespace TodoClient

/-- C8: the completion toggle dispatches the generic update mutation
with `{is_completed: false}` (a PATCH to the task endpoint, never the
complete-specific endpoint) for a completed task, and the complete
mutation (POST to the complete endpoint) for an incomplete one. -/
theorem toggle_complete_dispatch (t : Task) :
    (t.is_completed = true →
      handleToggleComplete t = ToggleAction.updateCall t.id { is_completed := some false }
      ∧ toggleRequest (handleToggleComplete t) = updateTaskRequest t.id
      ∧ (updateTaskRequest t.id).method = HttpMethod.patch
      ∧ (updateTaskRequest t.id).path = "/tasks/" ++ toString t.id ++ "/"
      ∧ toggleRequest (handleToggleComplete t) ≠ completeTaskRequest t.id)
    ∧ (t.is_completed = false →
      handleToggleComplete t = ToggleAction.completeCall t.id
      ∧ toggleRequest (handleToggleComplete t) = completeTaskRequest t.id
      ∧ (completeTaskRequest t.id).method = HttpMethod.post
      ∧ (completeTaskRequest t.id).path = "/tasks/" ++ toString t.id ++ "/complete/") := by
  constructor
  · intro h
    simp [handleToggleComplete, h, toggleRequest, updateTaskRequest, completeTaskRequest]
  · intro h
    simp [handleToggleComplete, h, toggleRequest, completeTaskRequest]

/-- Witness for C8: a concrete completed task toggles through the
PATCH update, a concrete incomplete one through the complete POST. -/
theorem toggle_complete_dispatch_witness :
    handleToggleComplete ⟨7, "done", "", none, "high", true, none⟩
      = ToggleAction.updateCall 7 { is_completed := some false }
    ∧ handleToggleComplete ⟨8, "open", "", none, "low", false, none⟩
      = ToggleAction.completeCall 8 :=
  ⟨((toggle_complete_dispatch ⟨7, "done", "", none, "high", true, none⟩).1 rfl).1,
   ((toggle_complete_dispatch ⟨8, "open", "", none, "low", false, none⟩).2 rfl).1⟩

/-- C9: the AI-enhancement action is rendered exactly when the task is
incomplete and its AI-enhanced description is absent (absent in the
JavaScript sense: missing or the empty string); any completed task, or
any task with a non-empty AI-enhanced description, gets no control. -/
theorem enhance_button_guard (t : Task) :
    (showEnhanceButton t = true ↔
      t.is_completed = false
        ∧ (t.ai_enhanced_description = none ∨ t.ai_enhanced_description = some ""))
    ∧ (t.is_completed = true → showEnhanceButton t = false)
    ∧ (∀ s, s ≠ "" → t.ai_enhanced_description = some s → showEnhanceButton t = false) := by
  refine ⟨?_, ?_, ?_⟩
  · cases hd : t.ai_enhanced_description with
    | none => simp [showEnhanceButton, jsTruthyStr, hd]
    | some s =>
        simp [showEnhanceButton, jsTruthyStr, hd, String.isEmpty_iff]
  · intro h
    simp [showEnhanceButton, h]
  · intro s hs hd
    simp [showEnhanceButton, jsTruthyStr, hd, string_isEmpty_eq_false, hs]

/-- Witness for C9: a completed task and an already-enhanced task get
no button; an incomplete unenhanced task gets one. -/
theorem enhance_button_guard_witness :
    showEnhanceButton ⟨1, "a", "", none, "low", true, none⟩ = false
    ∧ showEnhanceButton ⟨2, "b", "", some "AI text", "low", false, none⟩ = false
    ∧ showEnhanceButton ⟨3, "c", "", none, "low", false, none⟩ = true :=
  ⟨(enhance_button_guard ⟨1, "a", "", none, "low", true, none⟩).2.1 rfl,
   (enhance_button_guard ⟨2, "b", "", some "AI text", "low", false, none⟩).2.2
     "AI text" (by decide) rfl,
   (enhance_button_guard ⟨3, "c", "", none, "low", false, none⟩).1.mpr
     ⟨rfl, Or.inl rfl⟩⟩

/-- C10: `getErrorMessage` always returns a string, with precedence
`response.data.message`, then `response.data.detail`, then the error's
own `message`, then the fixed fallback (presence meaning a non-empty
value, matching the code's truthiness guards); a field→message-array
body without `message`/`detail` keys is never flattened — the result
falls through to the error's message or the generic fallback. -/
theorem getErrorMessage_spec (e : AxiosErr) :
    (∀ m, m ≠ "" → e.data.bind ErrData.message = some m → getErrorMessage e = m)
    ∧ (∀ d, d ≠ "" → jsTruthyStr (e.data.bind ErrData.message) = false →
        e.data.bind ErrData.detail = some d → getErrorMessage e = d)
    ∧ (∀ m, m ≠ "" → jsTruthyStr (e.data.bind ErrData.message) = false →
        jsTruthyStr (e.data.bind ErrData.detail) = false →
        e.message = some m → getErrorMessage e = m)
    ∧ (jsTruthyStr (e.data.bind ErrData.message) = false →
        jsTruthyStr (e.data.bind ErrData.detail) = false →
        jsTruthyStr e.message = false →
        getErrorMessage e = "An unexpected error occurred")
    ∧ (∀ (flds : List (String × List String)),
        getErrorMessage { data := some { message := none, detail := none, fields := flds },
                          message := none } = "An unexpected error occurred")
    ∧ (∀ (flds : List (String × List String)) (m : String), m ≠ "" →
        getErrorMessage { data := some { message := none, detail := none, fields := flds },
                          message := some m } = m) := by
  refine ⟨?_, ?_, ?_, ?_, ?_, ?_⟩
  · intro m hm h
    simp [getErrorMessage, h, string_isEmpty_eq_false, hm]
  · intro d hd h1 h2
    simp [getErrorMessage, h1, h2, string_isEmpty_eq_false, hd]
  · intro m hm h1 h2 h3
    simp [getErrorMessage, h1, h2, h3, string_isEmpty_eq_false, hm]
  · intro h1 h2 h3
    simp [getErrorMessage, h1, h2, h3]
  · intro flds
    simp [getErrorMessage, jsTruthyStr]
  · intro flds m hm
    simp [getErrorMessage, jsTruthyStr, string_isEmpty_eq_false, hm]

/-- Witness for C10: a `message` body wins over `detail`, and a pure
field→array body falls through to the error's own message. -/
theorem getErrorMessage_spec_witness :
    getErrorMessage { data := some { message := some "server says no",
                                     detail := some "ignored",
                                     fields := [] },
                      message := none } = "server says no"
    ∧ getErrorMessage { data := some { message := none, detail := none,
                                       fields := [("username", ["taken"])] },
                        message := some "Request failed with status code 400" }
      = "Request failed with status code 400" :=
  ⟨(getErrorMessage_spec { data := some { message := some "server says no",
                                          detail := some "ignored", fields := [] },
                           message := none }).1 "server says no" (by decide) rfl,
   (getErrorMessage_spec { data := some { message := none, detail := none,
                                          fields := [("username", ["taken"])] },
                           message := some "Request failed with status code 400"
                         }).2.2.2.2.2 [("username", ["taken"])]
     "Request failed with status code 400" (by decide)⟩

end TodoClient
